import Mathlib

/-!
# CoSense Cloud — verification of the streaming coordination decision engine

Shallow embedding of the parts of the repository that the specification's
claims are about:

* the Flink SQL anomaly-detection pipeline
  (`flink-sql` / the anomaly SQL file: views `decision_rate_windowed`,
  `decision_rate_anomalies`, `robot_stop_frequency`, sink `anomaly_alerts`
  and its three INSERT pipelines),
* the Gemini enrichment pipeline (`anomaly_alerts_enriched` table and its
  INSERT),
* the activity-feed hook of the control-center webapp
  (`usePipelineActivity.ts`),
* and, modelled from the spec where the stream-processor sources are not in
  the repository snapshot, the risk-scoring model, the decision mapper and
  its hysteresis.

Conventions: event timestamps are modelled in whole seconds as `ℕ`
(`TUMBLE(..., INTERVAL '30' SECOND)` assigns a decision with event time `t`
to window index `t / 30`); a window's time attribute (`window_time`, used in
`UNIX_TIMESTAMP`) is modelled as the window end in seconds.  SQL `DOUBLE`
columns are abstracted by a numeric type parameter: the computable count
pipelines use `ℚ`, the statistical forecasting model uses `ℝ`.
-/

/-- Alert severity, the `severity` column of `anomaly_alerts`
(`'HIGH'` / `'MEDIUM'` strings in the SQL). -/
inductive Severity
  | MEDIUM
  | HIGH
deriving DecidableEq

/-- One record of the `coordination_decisions` source table, restricted to
the columns the anomaly pipeline reads (`robot_id`, `zone_id`, `action`,
`primary_reason` and the event time; the remaining columns — decision id,
risk score, reason codes, summary — are not consumed by the embedded
pipelines). -/
structure Decision where
  robot_id : String
  zone_id : String
  action : String
  primary_reason : String
  event_time : ℕ
deriving DecidableEq

/-- One row of the `robot_stop_frequency` view: a (robot, zone, 30s-window)
group of STOP decisions that passed the `HAVING COUNT(*) >= 2` clause,
with the aggregated count and the `LISTAGG` of the group's primary
reasons. -/
structure StopGroup where
  robot_id : String
  zone_id : String
  window : ℕ
  stop_count : ℕ
  reasons : List String
deriving DecidableEq

/-- One row of the `anomaly_alerts` sink table (CREATE TABLE in the anomaly
SQL).  `R` abstracts the SQL `DOUBLE` column type.  `robot_id` is nullable
(`CAST(NULL AS STRING)` in the zone-scoped pipelines) and so is
`forecast_value` (the rate pipeline filters `forecast_value IS NOT NULL`). -/
structure AnomalyAlert (R : Type) where
  alert_id : String
  alert_type : String
  detected_at : ℕ
  zone_id : String
  robot_id : Option String
  metric_name : String
  actual_value : R
  forecast_value : Option R
  lower_bound : R
  upper_bound : R
  severity : Severity
  context : String
deriving DecidableEq

/-! ## Repeated robot stop pipeline (`robot_stop_frequency` and its INSERT) -/

/-- The GROUP BY key of `robot_stop_frequency`: robot id, zone id, and the
index of the 30-second tumbling window containing the decision. -/
def stopKey (d : Decision) : String × String × ℕ :=
  (d.robot_id, d.zone_id, d.event_time / 30)

/-- The rows surviving the view's `WHERE action = 'STOP'` clause. -/
def stopDecisions (ds : List Decision) : List Decision :=
  ds.filter fun d => decide (d.action = "STOP")

/-- The `COUNT(*)` aggregate of the view's group with key `k`: the number of STOP
decisions of that robot and zone inside that 30-second tumbling window. -/
def stopCountIn (ds : List Decision) (k : String × String × ℕ) : ℕ :=
  ((stopDecisions ds).filter fun d => decide (stopKey d = k)).length

/-- The `LISTAGG(primary_reason, ', ')` input of the group with key `k`. -/
def groupReasons (ds : List Decision) (k : String × String × ℕ) : List String :=
  (((stopDecisions ds).filter fun d => decide (stopKey d = k)).map
    fun d => d.primary_reason)

/-- The `robot_stop_frequency` view: one row per distinct
(robot, zone, 30s tumbling window) group of STOP decisions whose count
passes `HAVING COUNT(*) >= 2`. -/
def robot_stop_frequency (ds : List Decision) : List StopGroup :=
  (((stopDecisions ds).map stopKey).dedup).filterMap fun k =>
    if 2 ≤ stopCountIn ds k then
      some ⟨k.1, k.2.1, k.2.2, stopCountIn ds k, groupReasons ds k⟩
    else none

/-- The SELECT list of the `REPEATED_ROBOT_STOP` INSERT: constant forecast
`1.0` and bounds `[0.0, 1.0]`, actual value the stop count, severity `HIGH`
when `stop_count >= 3`, else `MEDIUM`. -/
def mkRepeatedStopAlert (g : StopGroup) : AnomalyAlert ℚ where
  alert_id := "rrs-" ++ toString (30 * g.window + 30) ++ "-" ++ g.robot_id
  alert_type := "REPEATED_ROBOT_STOP"
  detected_at := 30 * g.window + 30
  zone_id := g.zone_id
  robot_id := some g.robot_id
  metric_name := "stop_count_30s"
  actual_value := (g.stop_count : ℚ)
  forecast_value := some 1
  lower_bound := 0
  upper_bound := 1
  severity := if 3 ≤ g.stop_count then Severity.HIGH else Severity.MEDIUM
  context := g.robot_id ++ " stopped " ++ toString g.stop_count ++
    " times in 30s. Reasons: " ++ String.intercalate ", " g.reasons

/-- The `INSERT INTO anomaly_alerts ... FROM robot_stop_frequency`
pipeline: the alerts published for a given decision stream. -/
def repeatedRobotStopAlerts (ds : List Decision) : List (AnomalyAlert ℚ) :=
  (robot_stop_frequency ds).map mkRepeatedStopAlert

/-- The repeated-stop alerts published for the (robot, zone, window) group
`(r, z, w)`. -/
def rrsAlertsAt (ds : List Decision) (r z : String) (w : ℕ) :
    List (AnomalyAlert ℚ) :=
  (repeatedRobotStopAlerts ds).filter fun a =>
    decide ((a.robot_id, a.zone_id, a.detected_at) =
      (some r, z, 30 * w + 30))

/-! ## Sensor disagreement pipeline
(`decision_rate_windowed` and the `SENSOR_DISAGREEMENT_SPIKE` INSERT) -/

/-- The GROUP BY key of `decision_rate_windowed`: zone id and the index of
the 10-second tumbling window containing the decision. -/
def rateWindowKey (d : Decision) : String × ℕ :=
  (d.zone_id, d.event_time / 10)

/-- The `sensor_disagreement_count` aggregate of `decision_rate_windowed`
for the (zone, 10s-window) group `k`:
`COUNT(CASE WHEN primary_reason = 'SENSOR_DISAGREEMENT' THEN 1 END)`. -/
def sensorDisagreementCount (ds : List Decision) (k : String × ℕ) : ℕ :=
  (ds.filter fun d =>
    decide (rateWindowKey d = k ∧ d.primary_reason = "SENSOR_DISAGREEMENT")).length

/-- The SELECT list of the `SENSOR_DISAGREEMENT_SPIKE` INSERT: severity is
the constant `'HIGH'`, the actual value is the disagreement count, forecast
`0.0`, bounds `[0.0, 1.0]`, `robot_id` NULL. -/
def mkSensorDisagreementAlert (z : String) (w : ℕ) (c : ℕ) : AnomalyAlert ℚ where
  alert_id := "sd-" ++ toString (10 * w + 10) ++ "-" ++ z
  alert_type := "SENSOR_DISAGREEMENT_SPIKE"
  detected_at := 10 * w + 10
  zone_id := z
  robot_id := none
  metric_name := "sensor_disagreement_count"
  actual_value := (c : ℚ)
  forecast_value := some 0
  lower_bound := 0
  upper_bound := 1
  severity := Severity.HIGH
  context := toString c ++ " sensor disagreements detected in 10s window"

/-- The `INSERT INTO anomaly_alerts ... FROM decision_rate_windowed WHERE
sensor_disagreement_count >= 2` pipeline: one alert per (zone, 10s-window)
group of the view whose disagreement count reaches 2. -/
def sensorDisagreementAlerts (ds : List Decision) : List (AnomalyAlert ℚ) :=
  ((ds.map rateWindowKey).dedup).filterMap fun k =>
    if 2 ≤ sensorDisagreementCount ds k then
      some (mkSensorDisagreementAlert k.1 k.2 (sensorDisagreementCount ds k))
    else none

/-- The sensor-disagreement alerts published for the (zone, window) group
`(z, w)`. -/
def sdAlertsAt (ds : List Decision) (z : String) (w : ℕ) :
    List (AnomalyAlert ℚ) :=
  (sensorDisagreementAlerts ds).filter fun a =>
    decide ((a.zone_id, a.detected_at) = (z, 10 * w + 10))

/-- The total number of SENSOR_DISAGREEMENT decisions in the 10-second
window `w` across the whole decision stream (all zones): the reading of
"the number of decisions whose primary_reason is SENSOR_DISAGREEMENT in
that window" that ignores the view's per-zone grouping. -/
def sensorDisagreementTotal (ds : List Decision) (w : ℕ) : ℕ :=
  (ds.filter fun d =>
    decide (d.event_time / 10 = w ∧ d.primary_reason = "SENSOR_DISAGREEMENT")).length

/-! ## Enrichment pipeline (`anomaly_alerts_enriched` and its INSERT) -/

/-- One row of the `anomaly_alerts_enriched` sink table, exactly the columns
of its CREATE TABLE: note it has no `lower_bound` / `upper_bound` columns. -/
structure EnrichedAlert (R : Type) where
  alert_id : String
  alert_type : String
  detected_at : ℕ
  zone_id : String
  robot_id : Option String
  metric_name : String
  actual_value : R
  forecast_value : Option R
  severity : Severity
  context : String
  ai_explanation : String
deriving DecidableEq

/-- The SELECT list of the enrichment INSERT: the carried columns of the raw
alert `a` plus the Gemini explanation returned by `ML_PREDICT`. -/
def enrichAlert {R : Type} (a : AnomalyAlert R) (explanation : String) :
    EnrichedAlert R where
  alert_id := a.alert_id
  alert_type := a.alert_type
  detected_at := a.detected_at
  zone_id := a.zone_id
  robot_id := a.robot_id
  metric_name := a.metric_name
  actual_value := a.actual_value
  forecast_value := a.forecast_value
  severity := a.severity
  context := a.context
  ai_explanation := explanation

/-- The column names of the `anomaly_alerts` CREATE TABLE, in order. -/
def anomaly_alerts_columns : List String :=
  ["alert_id", "alert_type", "detected_at", "zone_id", "robot_id",
   "metric_name", "actual_value", "forecast_value", "lower_bound",
   "upper_bound", "severity", "context"]

/-- The column names of the `anomaly_alerts_enriched` CREATE TABLE, in
order. -/
def anomaly_alerts_enriched_columns : List String :=
  ["alert_id", "alert_type", "detected_at", "zone_id", "robot_id",
   "metric_name", "actual_value", "forecast_value", "severity", "context",
   "ai_explanation"]

/-! ## Decision rate spike pipeline
(`decision_rate_anomalies` and the `DECISION_RATE_SPIKE` INSERT)

`ML_DETECT_ANOMALIES` is Confluent's managed forecasting function and is not
part of this repository; it is modelled from the spec below.  The repository
code supplies its options (`minTrainingSize = 6`, `confidencePercentage =
95.0`) and the INSERT that consumes its result. -/

/-- The `minTrainingSize` option passed to `ML_DETECT_ANOMALIES` in the repository's
`JSON_OBJECT` options: 1 minute of 10s windows. -/
def minTrainingSize : ℕ := 6

/-- Arithmetic mean of a list of reals (`forecast = mean` in the spec's
substituted statistical model). -/
noncomputable def listMean (l : List ℝ) : ℝ :=
  l.sum / l.length

/-- Population variance of a list of reals. -/
noncomputable def listVar (l : List ℝ) : ℝ :=
  ((l.map fun x => (x - listMean l) ^ 2).sum) / l.length

/-- Standard deviation of a list of reals. -/
noncomputable def listStddev (l : List ℝ) : ℝ :=
  Real.sqrt (listVar l)

/-- The record produced by `ML_DETECT_ANOMALIES` as consumed by the INSERT:
`forecast_value` (nullable), `lower_bound`, `upper_bound`, `is_anomaly`. -/
structure MLAnomalyResult where
  forecast_value : Option ℝ
  lower_bound : ℝ
  upper_bound : ℝ
  is_anomaly : Prop

/-- Modelled from the spec: `ML_DETECT_ANOMALIES`, Confluent's managed
anomaly function, is absent from the repository; the spec substitutes an
explicit statistical model — over the trailing history of
`decision_count` values, `forecast = mean`, `bound = forecast ± z·stddev`
with `z = 2` (95% two-sided confidence, matching the repository's
`confidencePercentage 95.0`), anomalous iff the actual value exceeds the
upper bound, and with fewer than `minTrainingSize` observed windows the
detector abstains: no forecast and never anomalous. -/
noncomputable def ML_DETECT_ANOMALIES (hist : List ℝ) (actual : ℝ) :
    MLAnomalyResult :=
  if hist.length < minTrainingSize then
    ⟨none, 0, 0, False⟩
  else
    ⟨some (listMean hist),
     listMean hist - 2 * listStddev hist,
     listMean hist + 2 * listStddev hist,
     listMean hist + 2 * listStddev hist < actual⟩

/-- The `DECISION_RATE_SPIKE` INSERT as a relation between the trailing
history, the current window (zone, window-time, `decision_count`) and a
published alert: the row is emitted only `WHERE is_anomaly = TRUE AND
forecast_value IS NOT NULL`, carries the detector's forecast and bounds,
and its severity is `HIGH` when `decision_count > upper_bound * 1.5`, else
`MEDIUM`. -/
def DecisionRateAlertEmitted (hist : List ℝ) (zone : String) (wt : ℕ)
    (count : ℕ) (a : AnomalyAlert ℝ) : Prop :=
  (ML_DETECT_ANOMALIES hist (count : ℝ)).is_anomaly ∧
  (ML_DETECT_ANOMALIES hist (count : ℝ)).forecast_value.isSome = true ∧
  a.alert_id = "dra-" ++ toString wt ++ "-" ++ zone ∧
  a.alert_type = "DECISION_RATE_SPIKE" ∧
  a.detected_at = wt ∧
  a.zone_id = zone ∧
  a.robot_id = none ∧
  a.metric_name = "decision_count" ∧
  a.actual_value = (count : ℝ) ∧
  a.forecast_value = (ML_DETECT_ANOMALIES hist (count : ℝ)).forecast_value ∧
  a.lower_bound = (ML_DETECT_ANOMALIES hist (count : ℝ)).lower_bound ∧
  a.upper_bound = (ML_DETECT_ANOMALIES hist (count : ℝ)).upper_bound ∧
  (((count : ℝ) > (ML_DETECT_ANOMALIES hist (count : ℝ)).upper_bound * 1.5 →
      a.severity = Severity.HIGH) ∧
   (¬ (count : ℝ) > (ML_DETECT_ANOMALIES hist (count : ℝ)).upper_bound * 1.5 →
      a.severity = Severity.MEDIUM))

/-! ## Risk scoring model

Modelled from the spec: the stream processor's risk module (`src/risk.py`
of the stream processor) is not in the repository snapshot — only its
documentation is.  The spec fixes the six factor weights
0.35/0.25/0.15/0.10/0.10/0.05, requires them to sum to 1, and clamps the
output to `[0, 1]`. -/

/-- The six normalized risk factors of a `FusedWindow` (each produced in
`[0, 1]` by the factor normalizers, which are outside these claims). -/
structure FusedWindow where
  proximity_risk : ℚ
  velocity_risk : ℚ
  visibility_penalty : ℚ
  ble_risk : ℚ
  congestion_factor : ℚ
  sensor_disagreement : ℚ

/-- The fixed factor weights, in factor order. -/
def riskWeights : List ℚ :=
  [0.35, 0.25, 0.15, 0.10, 0.10, 0.05]

/-- Clamp to the unit interval. -/
def clamp01 (x : ℚ) : ℚ := max 0 (min 1 x)

/-- Modelled from the spec: the unclamped weighted sum of the six factors. -/
def rawRisk (fw : FusedWindow) : ℚ :=
  0.35 * fw.proximity_risk + 0.25 * fw.velocity_risk +
  0.15 * fw.visibility_penalty + 0.10 * fw.ble_risk +
  0.10 * fw.congestion_factor + 0.05 * fw.sensor_disagreement

/-- Modelled from the spec: the risk score of a fused window — the weighted
sum clamped to `[0, 1]`; a pure function of the `FusedWindow`. -/
def risk_score (fw : FusedWindow) : ℚ :=
  clamp01 (rawRisk fw)

/-! ## Decision mapper and hysteresis

Modelled from the spec: the stream processor's decision mapper is not in the
repository snapshot — only its documentation is.  The spec's thresholds:
STOP when risk ≥ 0.8 or nearest-human distance < 1.5 m; SLOW when risk ≥
0.5 or distance < 3.0 m; REROUTE when risk ≥ 0.6 and the zone is congested;
else CONTINUE.  The three threshold conditions overlap (the REROUTE
precondition risk ≥ 0.6 implies the SLOW precondition risk ≥ 0.5), so the
clauses are read as a prioritized case split; REROUTE is checked before
SLOW, the only priority under which the REROUTE clause is reachable. -/

/-- The four actions of the decision mapper's state machine. -/
inductive RobotAction
  | CONTINUE
  | SLOW
  | STOP
  | REROUTE
deriving DecidableEq

/-- Modelled from the spec: the threshold-based action choice for one scored
window (`risk` the risk score, `dist` the nearest-human distance in metres,
`congested` whether the owning zone is congested). -/
def decideAction (risk dist : ℚ) (congested : Bool) : RobotAction :=
  if 0.8 ≤ risk ∨ dist < 1.5 then RobotAction.STOP
  else if 0.6 ≤ risk ∧ congested = true then RobotAction.REROUTE
  else if 0.5 ≤ risk ∨ dist < 3.0 then RobotAction.SLOW
  else RobotAction.CONTINUE

/-- The hysteresis margin: a robot leaves STOP only once risk has dropped at
least this far below the STOP threshold. -/
def stopMargin : ℚ := 0.15

/-- Modelled from the spec: one hysteresis-guarded step of the per-robot
state machine.  In STOP the robot stays in STOP while the risk has not
dropped at least `stopMargin` below the 0.8 STOP threshold; the analogous
margin holds a SLOW robot out of CONTINUE while risk has not dropped at
least `stopMargin` below the 0.5 SLOW threshold; otherwise the action is
re-derived from the thresholds. -/
def hysteresisStep (prev : RobotAction) (risk dist : ℚ) (congested : Bool) :
    RobotAction :=
  if prev = RobotAction.STOP ∧ 0.8 - stopMargin < risk then RobotAction.STOP
  else if prev = RobotAction.SLOW ∧
      decideAction risk dist congested = RobotAction.CONTINUE ∧
      0.5 - stopMargin < risk then RobotAction.SLOW
  else decideAction risk dist congested

/-- The sequence of actions produced by running the hysteresis-guarded
mapper from a previous action over a list of scored windows
(risk, distance, congested). -/
def runHysteresis : RobotAction → List (ℚ × ℚ × Bool) → List RobotAction
  | _, [] => []
  | prev, i :: is =>
    hysteresisStep prev i.1 i.2.1 i.2.2 ::
      runHysteresis (hysteresisStep prev i.1 i.2.1 i.2.2) is

/-- The number of STOP-to-non-STOP transitions along an action trace that
starts from the given previous action. -/
def countStopExits : RobotAction → List RobotAction → ℕ
  | _, [] => 0
  | prev, a :: rest =>
    (if prev = RobotAction.STOP ∧ a ≠ RobotAction.STOP then 1 else 0) +
      countStopExits a rest

/-! ## Pipeline activity feed (`usePipelineActivity.ts`) -/

/-- JavaScript `arr.slice(-k)`: the last `k` elements, except that `k = 0`
yields `slice(0)`, the whole array. -/
def jsSliceLast {α : Type} (l : List α) (k : ℕ) : List α :=
  if k = 0 then l else l.drop (l.length - k)

/-- The `activity` listener of `usePipelineActivity`: append the incoming
event and keep only the most recent `maxEvents`
(`[...prev, event].slice(-maxEvents)`). -/
def pushActivityEvent {α : Type} (maxEvents : ℕ) (events : List α) (e : α) :
    List α :=
  jsSliceLast (events ++ [e]) maxEvents

/-- The `maxEvents` bound as configured by `PipelineActivityPage`. -/
def activityPageMaxEvents : ℕ := 200

/-! ## Concrete example streams used by witnesses and counterexamples -/

/-- Three STOP decisions of one robot at 20 s, 25 s and 35 s: every pair is
within 30 seconds of each other (the whole burst spans 15 s), but the burst
straddles the boundary between the 30-second tumbling windows 0 and 1. -/
def exStraddle : List Decision :=
  [⟨"R1", "zone-a", "STOP", "CLOSE_PROXIMITY", 20⟩,
   ⟨"R1", "zone-a", "STOP", "CLOSE_PROXIMITY", 25⟩,
   ⟨"R1", "zone-a", "STOP", "BLE_PROXIMITY_DETECTED", 35⟩]

/-- Three STOP decisions of one robot at 1 s, 5 s and 9 s, all inside the
30-second tumbling window 0. -/
def exBurst : List Decision :=
  [⟨"R1", "zone-a", "STOP", "CLOSE_PROXIMITY", 1⟩,
   ⟨"R1", "zone-a", "STOP", "CLOSE_PROXIMITY", 5⟩,
   ⟨"R1", "zone-a", "STOP", "SENSOR_DISAGREEMENT", 9⟩]

/-- Two SENSOR_DISAGREEMENT decisions inside the same 10-second window but
in two different zones. -/
def exTwoZones : List Decision :=
  [⟨"R1", "zone-a", "STOP", "SENSOR_DISAGREEMENT", 3⟩,
   ⟨"R2", "zone-b", "STOP", "SENSOR_DISAGREEMENT", 5⟩]

/-- Two SENSOR_DISAGREEMENT decisions inside the same 10-second window and
the same zone. -/
def exOneZone : List Decision :=
  [⟨"R1", "zone-a", "STOP", "SENSOR_DISAGREEMENT", 3⟩,
   ⟨"R2", "zone-a", "SLOW", "SENSOR_DISAGREEMENT", 5⟩]

/-- A flat trailing history of six 10-second windows with five decisions
each (zero variance). -/
noncomputable def exHist6 : List ℝ := [5, 5, 5, 5, 5, 5]

/-- A trailing history of only five windows: fewer than `minTrainingSize`. -/
noncomputable def exHist5 : List ℝ := [5, 5, 5, 5, 5]

/-- The alert the rate pipeline publishes for `exHist6` and a current window
counting 40 decisions. -/
noncomputable def exRateAlert : AnomalyAlert ℝ where
  alert_id := "dra-60-zone-a"
  alert_type := "DECISION_RATE_SPIKE"
  detected_at := 60
  zone_id := "zone-a"
  robot_id := none
  metric_name := "decision_count"
  actual_value := 40
  forecast_value := some 5
  lower_bound := 5
  upper_bound := 5
  severity := Severity.HIGH
  context := "Decision rate spiked to 40 (expected 5, upper bound 5)"

/-! ## Helper lemmas -/

/-- Filtering a keyed `filterMap` over duplicate-free keys at one key yields
the single row produced for that key, when the key occurs, and nothing
otherwise.  This captures GROUP BY semantics: one output row per distinct
group key. -/
theorem filterMap_filter_key {J G K : Type} [DecidableEq J] [DecidableEq K]
    (f : J → Option G) (key : G → K) (h : J → K)
    (hinj : ∀ j j2 : J, h j = h j2 → j = j2)
    (hf : ∀ (j : J) (g : G), f j = some g → key g = h j) :
    ∀ (ks : List J), ks.Nodup → ∀ j0 : J,
      (ks.filterMap f).filter (fun g => decide (key g = h j0)) =
        if j0 ∈ ks then (f j0).toList else [] := by
  intro ks
  induction ks with
  | nil =>
    intro _ j0
    simp
  | cons j ks ih =>
    intro hnd j0
    have hj : j ∉ ks := (List.nodup_cons.mp hnd).1
    have hnd2 : ks.Nodup := (List.nodup_cons.mp hnd).2
    rw [List.filterMap_cons]
    cases hfj : f j with
    | none =>
      rw [ih hnd2 j0]
      by_cases hje : j0 = j
      · subst hje
        simp [hj, hfj]
      · by_cases hmem : j0 ∈ ks
        · rw [if_pos hmem, if_pos (List.mem_cons_of_mem _ hmem)]
        · rw [if_neg hmem,
            if_neg (by simp [List.mem_cons, hmem, hje])]
    | some g =>
      have hkey : key g = h j := hf j g hfj
      rw [List.filter_cons]
      by_cases hje : j = j0
      · subst hje
        have hd : decide (key g = h j) = true := by simp [hkey]
        rw [hd]
        simp only [if_true]
        rw [ih hnd2 j]
        simp [hj, hfj]
      · have hne : ¬ key g = h j0 := by
          rw [hkey]
          intro hc
          exact hje (hinj j j0 hc)
        have hd : decide (key g = h j0) = false := by simp [hne]
        rw [hd]
        simp only [Bool.false_eq_true, if_false]
        rw [ih hnd2 j0]
        by_cases hmem : j0 ∈ ks
        · rw [if_pos hmem, if_pos (List.mem_cons_of_mem _ hmem)]
        · rw [if_neg hmem,
            if_neg (by
              simp only [List.mem_cons, hmem, or_false]
              exact fun hc => hje hc.symm)]

/-- A positive group count puts the group key among the deduplicated keys of
the stop decisions. -/
theorem stopKey_mem_of_pos (ds : List Decision) (k : String × String × ℕ)
    (hpos : 0 < stopCountIn ds k) :
    k ∈ ((stopDecisions ds).map stopKey).dedup := by
  unfold stopCountIn at hpos
  rw [List.length_pos] at hpos
  obtain ⟨d, hd⟩ := List.exists_mem_of_ne_nil _ hpos
  rw [List.mem_filter] at hd
  have hkd : stopKey d = k := of_decide_eq_true hd.2
  rw [List.mem_dedup, List.mem_map]
  exact ⟨d, hd.1, hkd⟩

/-- A positive disagreement count puts the (zone, window) key among the
deduplicated keys of the decision stream. -/
theorem rateKey_mem_of_pos (ds : List Decision) (k : String × ℕ)
    (hpos : 0 < sensorDisagreementCount ds k) :
    k ∈ (ds.map rateWindowKey).dedup := by
  unfold sensorDisagreementCount at hpos
  rw [List.length_pos] at hpos
  obtain ⟨d, hd⟩ := List.exists_mem_of_ne_nil _ hpos
  rw [List.mem_filter] at hd
  have hkd : rateWindowKey d = k := (of_decide_eq_true hd.2).1
  rw [List.mem_dedup, List.mem_map]
  exact ⟨d, hd.1, hkd⟩

/-- The group key of a published repeated-stop alert determines the
(robot, zone, window) group it came from. -/
theorem rrs_key_of_mk (ds : List Decision) :
    ∀ (j : String × String × ℕ) (a : AnomalyAlert ℚ),
      Option.map mkRepeatedStopAlert
        (if 2 ≤ stopCountIn ds j then
          some (⟨j.1, j.2.1, j.2.2, stopCountIn ds j,
            groupReasons ds j⟩ : StopGroup)
        else none) = some a →
      (a.robot_id, a.zone_id, a.detected_at) =
        ((some j.1 : Option String), j.2.1, 30 * j.2.2 + 30) := by
  intro j a hg
  by_cases hc : 2 ≤ stopCountIn ds j
  · rw [if_pos hc, Option.map_some'] at hg
    injection hg with hg2
    subst hg2
    rfl
  · rw [if_neg hc] at hg
    simp at hg

/-- The alert-level group key map is injective. -/
theorem rrs_key_injective :
    ∀ j j2 : String × String × ℕ,
      ((some j.1 : Option String), j.2.1, 30 * j.2.2 + 30) =
        ((some j2.1 : Option String), j2.2.1, 30 * j2.2.2 + 30) → j = j2 := by
  rintro ⟨a, b, c⟩ ⟨a2, b2, c2⟩ hh
  simp only [Prod.mk.injEq, Option.some.injEq] at hh
  simp only [Prod.mk.injEq]
  exact ⟨hh.1, hh.2.1, by omega⟩

/-- C1 (amended): STOP decisions are counted per robot (and zone) within
30-second tumbling windows; a window count of at least 2 produces exactly
one REPEATED_ROBOT_STOP alert for that group, with actual_value equal to
the count and severity HIGH exactly when the count is at least 3; a count
below 2 produces no alert for that group.  In particular a robot emitting 3
STOP decisions inside a single 30-second tumbling window produces exactly
one such alert with severity HIGH and actual_value = 3. -/
theorem C1_repeated_stop_tumbling (ds : List Decision) (r z : String) (w : ℕ) :
    (2 ≤ stopCountIn ds (r, z, w) →
      rrsAlertsAt ds r z w =
        [mkRepeatedStopAlert
          ⟨r, z, w, stopCountIn ds (r, z, w), groupReasons ds (r, z, w)⟩]) ∧
    (stopCountIn ds (r, z, w) < 2 → rrsAlertsAt ds r z w = []) ∧
    (∀ a ∈ rrsAlertsAt ds r z w,
      a.actual_value = (stopCountIn ds (r, z, w) : ℚ) ∧
      (a.severity = Severity.HIGH ↔ 3 ≤ stopCountIn ds (r, z, w))) := by
  have hres := filterMap_filter_key
    (fun k : String × String × ℕ =>
      Option.map mkRepeatedStopAlert
        (if 2 ≤ stopCountIn ds k then
          some (⟨k.1, k.2.1, k.2.2, stopCountIn ds k,
            groupReasons ds k⟩ : StopGroup)
        else none))
    (fun a : AnomalyAlert ℚ => (a.robot_id, a.zone_id, a.detected_at))
    (fun j : String × String × ℕ => (some j.1, j.2.1, 30 * j.2.2 + 30))
    rrs_key_injective (rrs_key_of_mk ds)
    (((stopDecisions ds).map stopKey).dedup) (List.nodup_dedup _) (r, z, w)
  have hone : 2 ≤ stopCountIn ds (r, z, w) →
      rrsAlertsAt ds r z w =
        [mkRepeatedStopAlert
          ⟨r, z, w, stopCountIn ds (r, z, w), groupReasons ds (r, z, w)⟩] := by
    intro h2
    have hpos : 0 < stopCountIn ds (r, z, w) := by omega
    rw [if_pos (stopKey_mem_of_pos ds _ hpos), if_pos h2] at hres
    unfold rrsAlertsAt repeatedRobotStopAlerts robot_stop_frequency
    rw [List.map_filterMap]
    exact hres
  have hnone : stopCountIn ds (r, z, w) < 2 → rrsAlertsAt ds r z w = [] := by
    intro hlt
    have h2 : ¬ 2 ≤ stopCountIn ds (r, z, w) := by omega
    rw [if_neg h2] at hres
    unfold rrsAlertsAt repeatedRobotStopAlerts robot_stop_frequency
    rw [List.map_filterMap]
    by_cases hmem : (r, z, w) ∈ ((stopDecisions ds).map stopKey).dedup
    · rw [if_pos hmem] at hres
      exact hres
    · rw [if_neg hmem] at hres
      exact hres
  refine ⟨hone, hnone, ?_⟩
  intro a ha
  by_cases h2 : 2 ≤ stopCountIn ds (r, z, w)
  · rw [hone h2, List.mem_singleton] at ha
    subst ha
    refine ⟨rfl, ?_⟩
    show (if 3 ≤ stopCountIn ds (r, z, w) then Severity.HIGH
      else Severity.MEDIUM) = Severity.HIGH ↔ 3 ≤ stopCountIn ds (r, z, w)
    by_cases h3 : 3 ≤ stopCountIn ds (r, z, w)
    · simp [h3]
    · simp [h3]
  · rw [hnone (by omega)] at ha
    simp at ha

/-- C1 counterexample: three STOP decisions of a single robot at 20 s, 25 s
and 35 s — all within 30 seconds of each other — do not produce one
REPEATED_ROBOT_STOP alert of severity HIGH with actual_value 3: the code's
30-second tumbling windows split the burst 2/1, so the pipeline publishes
exactly one alert, of severity MEDIUM with actual_value 2. -/
theorem C1_counterexample :
    exStraddle.all (fun d => decide (d.action = "STOP" ∧ d.robot_id = "R1")) =
      true ∧
    exStraddle.map (fun d => d.event_time) = [20, 25, 35] ∧
    (repeatedRobotStopAlerts exStraddle).map (fun a => a.severity) =
      [Severity.MEDIUM] ∧
    (repeatedRobotStopAlerts exStraddle).map (fun a => a.actual_value) =
      [(2 : ℚ)] := by
  decide

/-- C1 witness: three STOP decisions of robot R1 inside tumbling window 0
trigger the amended theorem's hypotheses and yield exactly one alert. -/
theorem C1_witness :
    2 ≤ stopCountIn exBurst ("R1", "zone-a", 0) ∧
    rrsAlertsAt exBurst "R1" "zone-a" 0 =
      [mkRepeatedStopAlert
        ⟨"R1", "zone-a", 0, stopCountIn exBurst ("R1", "zone-a", 0),
          groupReasons exBurst ("R1", "zone-a", 0)⟩] :=
  ⟨by decide,
   (C1_repeated_stop_tumbling exBurst "R1" "zone-a" 0).1 (by decide)⟩

/-- The group key of a published sensor-disagreement alert determines the
(zone, window) group it came from. -/
theorem sd_key_of_mk (ds : List Decision) :
    ∀ (j : String × ℕ) (a : AnomalyAlert ℚ),
      (if 2 ≤ sensorDisagreementCount ds j then
        some (mkSensorDisagreementAlert j.1 j.2 (sensorDisagreementCount ds j))
      else none) = some a →
      (a.zone_id, a.detected_at) = (j.1, 10 * j.2 + 10) := by
  intro j a hg
  by_cases hc : 2 ≤ sensorDisagreementCount ds j
  · rw [if_pos hc] at hg
    injection hg with hg2
    subst hg2
    rfl
  · rw [if_neg hc] at hg
    simp at hg

/-- The alert-level (zone, window) key map is injective. -/
theorem sd_key_injective :
    ∀ j j2 : String × ℕ,
      ((j.1 : String), 10 * j.2 + 10) = (j2.1, 10 * j2.2 + 10) → j = j2 := by
  rintro ⟨a, b⟩ ⟨a2, b2⟩ hh
  simp only [Prod.mk.injEq] at hh
  simp only [Prod.mk.injEq]
  exact ⟨hh.1, by omega⟩

/-- C4 (amended): sensor-disagreement decisions are counted per zone per
10-second tumbling window; a (zone, window) count of at least 2 produces
exactly one SENSOR_DISAGREEMENT_SPIKE alert for that group, with severity
HIGH and actual_value equal to the count; a count below 2 produces no
alert for that group. -/
theorem C4_sensor_disagreement_per_zone (ds : List Decision) (z : String)
    (w : ℕ) :
    (2 ≤ sensorDisagreementCount ds (z, w) →
      sdAlertsAt ds z w =
        [mkSensorDisagreementAlert z w (sensorDisagreementCount ds (z, w))]) ∧
    (sensorDisagreementCount ds (z, w) < 2 → sdAlertsAt ds z w = []) ∧
    (∀ a ∈ sdAlertsAt ds z w,
      a.severity = Severity.HIGH ∧
      a.actual_value = (sensorDisagreementCount ds (z, w) : ℚ)) := by
  have hres := filterMap_filter_key
    (fun k : String × ℕ =>
      if 2 ≤ sensorDisagreementCount ds k then
        some (mkSensorDisagreementAlert k.1 k.2 (sensorDisagreementCount ds k))
      else none)
    (fun a : AnomalyAlert ℚ => (a.zone_id, a.detected_at))
    (fun j : String × ℕ => (j.1, 10 * j.2 + 10))
    sd_key_injective (sd_key_of_mk ds)
    ((ds.map rateWindowKey).dedup) (List.nodup_dedup _) (z, w)
  have hone : 2 ≤ sensorDisagreementCount ds (z, w) →
      sdAlertsAt ds z w =
        [mkSensorDisagreementAlert z w (sensorDisagreementCount ds (z, w))] := by
    intro h2
    have hpos : 0 < sensorDisagreementCount ds (z, w) := by omega
    rw [if_pos (rateKey_mem_of_pos ds _ hpos), if_pos h2] at hres
    unfold sdAlertsAt sensorDisagreementAlerts
    exact hres
  have hnone : sensorDisagreementCount ds (z, w) < 2 →
      sdAlertsAt ds z w = [] := by
    intro hlt
    have h2 : ¬ 2 ≤ sensorDisagreementCount ds (z, w) := by omega
    rw [if_neg h2] at hres
    unfold sdAlertsAt sensorDisagreementAlerts
    by_cases hmem : (z, w) ∈ (ds.map rateWindowKey).dedup
    · rw [if_pos hmem] at hres
      exact hres
    · rw [if_neg hmem] at hres
      exact hres
  refine ⟨hone, hnone, ?_⟩
  intro a ha
  by_cases h2 : 2 ≤ sensorDisagreementCount ds (z, w)
  · rw [hone h2, List.mem_singleton] at ha
    subst ha
    exact ⟨rfl, rfl⟩
  · rw [hnone (by omega)] at ha
    simp at ha

/-- C4 counterexample: two SENSOR_DISAGREEMENT decisions inside the same
10-second window but in different zones — two such decisions in the window,
yet no SENSOR_DISAGREEMENT_SPIKE alert is published, because the pipeline
counts per zone. -/
theorem C4_counterexample :
    sensorDisagreementTotal exTwoZones 0 = 2 ∧
    sensorDisagreementAlerts exTwoZones = [] := by
  decide

/-- C4 witness: two SENSOR_DISAGREEMENT decisions in the same zone and the
same 10-second window yield exactly one HIGH alert with actual_value 2. -/
theorem C4_witness :
    2 ≤ sensorDisagreementCount exOneZone ("zone-a", 0) ∧
    sdAlertsAt exOneZone "zone-a" 0 =
      [mkSensorDisagreementAlert "zone-a" 0
        (sensorDisagreementCount exOneZone ("zone-a", 0))] :=
  ⟨by decide,
   (C4_sensor_disagreement_per_zone exOneZone "zone-a" 0).1 (by decide)⟩

/-- With fewer than `minTrainingSize` observed windows the detector model
returns the abstention record. -/
theorem ml_detect_short (hist : List ℝ) (actual : ℝ)
    (hlen : hist.length < minTrainingSize) :
    ML_DETECT_ANOMALIES hist actual = ⟨none, 0, 0, False⟩ := by
  unfold ML_DETECT_ANOMALIES
  rw [if_pos hlen]

/-- With at least `minTrainingSize` observed windows the detector model
returns the mean forecast with the two-sigma bounds. -/
theorem ml_detect_trained (hist : List ℝ) (actual : ℝ)
    (hlen : ¬ hist.length < minTrainingSize) :
    ML_DETECT_ANOMALIES hist actual =
      ⟨some (listMean hist),
       listMean hist - 2 * listStddev hist,
       listMean hist + 2 * listStddev hist,
       listMean hist + 2 * listStddev hist < actual⟩ := by
  unfold ML_DETECT_ANOMALIES
  rw [if_neg hlen]

/-- C2: with fewer than `minTrainingSize` (6) observed windows, the
rate-spike detector emits no DECISION_RATE_SPIKE alert, regardless of the
actual decision_count value — insufficient history causes abstention. -/
theorem C2_insufficient_history_abstains (hist : List ℝ) (zone : String)
    (wt count : ℕ) (a : AnomalyAlert ℝ)
    (hlen : hist.length < minTrainingSize) :
    ¬ DecisionRateAlertEmitted hist zone wt count a := by
  intro hem
  have h1 := hem.1
  rw [ml_detect_short hist (count : ℝ) hlen] at h1
  exact h1

/-- C2 witness: a five-window history abstains even at decision_count
1000. -/
theorem C2_witness :
    exHist5.length < minTrainingSize ∧
    ¬ DecisionRateAlertEmitted exHist5 "zone-a" 60 1000 exRateAlert :=
  ⟨by simp [exHist5, minTrainingSize],
   C2_insufficient_history_abstains exHist5 "zone-a" 60 1000 exRateAlert
     (by simp [exHist5, minTrainingSize])⟩

/-- C3: every emitted DECISION_RATE_SPIKE alert has an actual value
exceeding the forecast upper bound, and its severity is HIGH exactly when
the actual value exceeds 1.5 times the upper bound (else MEDIUM). -/
theorem C3_rate_spike_severity (hist : List ℝ) (zone : String)
    (wt count : ℕ) (a : AnomalyAlert ℝ)
    (hem : DecisionRateAlertEmitted hist zone wt count a) :
    (count : ℝ) > a.upper_bound ∧
    (a.severity = Severity.HIGH ↔ (count : ℝ) > 1.5 * a.upper_bound) := by
  obtain ⟨hano, hsome, hid, htype, hdet, hzone, hrob, hmet, hact, hfor,
    hlow, hupp, hHI, hMED⟩ := hem
  by_cases hlen : hist.length < minTrainingSize
  · rw [ml_detect_short hist (count : ℝ) hlen] at hano
    exact absurd hano id
  · rw [ml_detect_trained hist (count : ℝ) hlen] at hano hupp hHI hMED
    constructor
    · rw [hupp]
      exact hano
    · constructor
      · intro hH
        by_contra hnot
        have hnot2 : ¬ (count : ℝ) >
            (listMean hist + 2 * listStddev hist) * 1.5 := by
          rw [hupp] at hnot
          intro hc
          exact hnot (by linarith)
        have := hMED hnot2
        rw [this] at hH
        exact absurd hH (by simp)
      · intro hgt
        apply hHI
        rw [hupp] at hgt
        linarith

/-- The flat six-window history has mean 5 and standard deviation 0. -/
theorem exHist6_stats : listMean exHist6 = 5 ∧ listStddev exHist6 = 0 := by
  have hm : listMean exHist6 = 5 := by
    unfold listMean exHist6
    norm_num
  have hv : listVar exHist6 = 0 := by
    unfold listVar
    rw [hm]
    unfold exHist6
    norm_num
  have hs : listStddev exHist6 = 0 := by
    unfold listStddev
    rw [hv, Real.sqrt_zero]
  exact ⟨hm, hs⟩

/-- The rate pipeline publishes `exRateAlert` for the flat six-window
history and a current window of 40 decisions. -/
theorem exRateAlert_emitted :
    DecisionRateAlertEmitted exHist6 "zone-a" 60 40 exRateAlert := by
  have hlen : ¬ exHist6.length < minTrainingSize := by
    simp [exHist6, minTrainingSize]
  have hml := ml_detect_trained exHist6 ((40 : ℕ) : ℝ) hlen
  unfold DecisionRateAlertEmitted
  rw [hml]
  obtain ⟨hm, hs⟩ := exHist6_stats
  rw [hm, hs]
  refine ⟨by norm_num, rfl, by decide, rfl, rfl, rfl, rfl, rfl,
    by norm_num [exRateAlert], ?_, ?_, ?_, ?_, ?_⟩
  · show exRateAlert.forecast_value = some 5
    rfl
  · show exRateAlert.lower_bound = 5 - 2 * 0
    norm_num
    rfl
  · show exRateAlert.upper_bound = 5 + 2 * 0
    norm_num
    rfl
  · intro _
    rfl
  · intro hc
    exact absurd (by norm_num) hc

/-- C3 witness: for the flat six-window history and a window of 40
decisions, the published alert exceeds its upper bound (5) and is HIGH
because 40 > 1.5 × 5. -/
theorem C3_witness :
    DecisionRateAlertEmitted exHist6 "zone-a" 60 40 exRateAlert ∧
    ((40 : ℕ) : ℝ) > exRateAlert.upper_bound ∧
    (exRateAlert.severity = Severity.HIGH ↔
      ((40 : ℕ) : ℝ) > 1.5 * exRateAlert.upper_bound) :=
  ⟨exRateAlert_emitted,
   C3_rate_spike_severity exHist6 "zone-a" 60 40 exRateAlert
     exRateAlert_emitted⟩

/-- The burst stream publishes at least one repeated-stop alert. -/
theorem exBurst_alert_len : 0 < (repeatedRobotStopAlerts exBurst).length := by
  decide

/-- C9: every published REPEATED_ROBOT_STOP alert carries the constant
forecast_value 1.0 and bounds [0.0, 1.0] regardless of the observed
history, whereas a DECISION_RATE_SPIKE alert carries the forecast and
two-sigma bounds computed from the trailing windows. -/
theorem C9_repeated_stop_constant_bounds :
    (∀ (ds : List Decision) (i : ℕ)
      (hi : i < (repeatedRobotStopAlerts ds).length),
      ((repeatedRobotStopAlerts ds).get ⟨i, hi⟩).forecast_value = some 1 ∧
      ((repeatedRobotStopAlerts ds).get ⟨i, hi⟩).lower_bound = 0 ∧
      ((repeatedRobotStopAlerts ds).get ⟨i, hi⟩).upper_bound = 1) ∧
    (∀ (hist : List ℝ) (zone : String) (wt count : ℕ) (a : AnomalyAlert ℝ),
      DecisionRateAlertEmitted hist zone wt count a →
      a.forecast_value = some (listMean hist) ∧
      a.lower_bound = listMean hist - 2 * listStddev hist ∧
      a.upper_bound = listMean hist + 2 * listStddev hist) := by
  constructor
  · intro ds i hi
    have hlen : i < (robot_stop_frequency ds).length := by
      simpa [repeatedRobotStopAlerts] using hi
    simp only [repeatedRobotStopAlerts, List.get_eq_getElem, List.getElem_map]
    exact ⟨rfl, rfl, rfl⟩
  · intro hist zone wt count a hem
    obtain ⟨hano, hsome, hid, htype, hdet, hzone, hrob, hmet, hact, hfor,
      hlow, hupp, hsev⟩ := hem
    by_cases hlen : hist.length < minTrainingSize
    · rw [ml_detect_short hist (count : ℝ) hlen] at hano
      exact absurd hano id
    · rw [ml_detect_trained hist (count : ℝ) hlen] at hfor hlow hupp
      exact ⟨hfor, hlow, hupp⟩

/-- C9 witness: the burst stream's first alert carries forecast 1 and
bounds [0, 1]; the concrete rate alert for the flat history carries the
history's mean as forecast. -/
theorem C9_witness :
    ((repeatedRobotStopAlerts exBurst).get
      ⟨0, exBurst_alert_len⟩).forecast_value = some 1 ∧
    ((repeatedRobotStopAlerts exBurst).get
      ⟨0, exBurst_alert_len⟩).lower_bound = 0 ∧
    ((repeatedRobotStopAlerts exBurst).get
      ⟨0, exBurst_alert_len⟩).upper_bound = 1 ∧
    (DecisionRateAlertEmitted exHist6 "zone-a" 60 40 exRateAlert ∧
      exRateAlert.forecast_value = some (listMean exHist6)) := by
  refine ⟨?_, ?_, ?_, exRateAlert_emitted, ?_⟩
  · exact (C9_repeated_stop_constant_bounds.1 exBurst 0 exBurst_alert_len).1
  · exact (C9_repeated_stop_constant_bounds.1 exBurst 0 exBurst_alert_len).2.1
  · exact (C9_repeated_stop_constant_bounds.1 exBurst 0 exBurst_alert_len).2.2
  · exact (C9_repeated_stop_constant_bounds.2 exHist6 "zone-a" 60 40
      exRateAlert exRateAlert_emitted).1

/-- C5 counterexample: the raw `anomaly_alerts` table has `lower_bound` and
`upper_bound` columns, but the `anomaly_alerts_enriched` table — and hence
every record published on `anomaly.alerts.enriched` — does not, so the
enriched record does not contain all the fields of the raw record. -/
theorem C5_counterexample :
    "lower_bound" ∈ anomaly_alerts_columns ∧
    "upper_bound" ∈ anomaly_alerts_columns ∧
    "lower_bound" ∉ anomaly_alerts_enriched_columns ∧
    "upper_bound" ∉ anomaly_alerts_enriched_columns := by
  decide

/-- C5 (amended): the enriched record carries every raw alert field except
`lower_bound` and `upper_bound` unchanged, plus the single added field
`ai_explanation`; its schema is exactly the raw schema minus the two bound
columns plus `ai_explanation`. -/
theorem C5_enrichment_preserves_carried_fields :
    anomaly_alerts_enriched_columns =
      (anomaly_alerts_columns.filter fun c =>
        decide (c ≠ "lower_bound" ∧ c ≠ "upper_bound")) ++
        ["ai_explanation"] ∧
    ∀ (R : Type) (a : AnomalyAlert R) (explanation : String),
      (enrichAlert a explanation).alert_id = a.alert_id ∧
      (enrichAlert a explanation).alert_type = a.alert_type ∧
      (enrichAlert a explanation).detected_at = a.detected_at ∧
      (enrichAlert a explanation).zone_id = a.zone_id ∧
      (enrichAlert a explanation).robot_id = a.robot_id ∧
      (enrichAlert a explanation).metric_name = a.metric_name ∧
      (enrichAlert a explanation).actual_value = a.actual_value ∧
      (enrichAlert a explanation).forecast_value = a.forecast_value ∧
      (enrichAlert a explanation).severity = a.severity ∧
      (enrichAlert a explanation).context = a.context ∧
      (enrichAlert a explanation).ai_explanation = explanation := by
  constructor
  · decide
  · intro R a explanation
    exact ⟨rfl, rfl, rfl, rfl, rfl, rfl, rfl, rfl, rfl, rfl, rfl⟩

/-- C6: the six risk weights sum to 1; the risk score is always within
[0, 1]; and whenever every factor is already normalized to [0, 1] the clamp
is the identity, so the score equals the weighted sum of the six factors. -/
theorem C6_risk_score_weighted_clamped :
    riskWeights.sum = 1 ∧
    (∀ fw : FusedWindow, 0 ≤ risk_score fw ∧ risk_score fw ≤ 1) ∧
    (∀ fw : FusedWindow,
      0 ≤ fw.proximity_risk → fw.proximity_risk ≤ 1 →
      0 ≤ fw.velocity_risk → fw.velocity_risk ≤ 1 →
      0 ≤ fw.visibility_penalty → fw.visibility_penalty ≤ 1 →
      0 ≤ fw.ble_risk → fw.ble_risk ≤ 1 →
      0 ≤ fw.congestion_factor → fw.congestion_factor ≤ 1 →
      0 ≤ fw.sensor_disagreement → fw.sensor_disagreement ≤ 1 →
      risk_score fw = rawRisk fw) := by
  refine ⟨by norm_num [riskWeights], ?_, ?_⟩
  · intro fw
    unfold risk_score clamp01
    constructor
    · exact le_max_left 0 _
    · exact max_le (by norm_num) (min_le_left 1 _)
  · intro fw h1a h1b h2a h2b h3a h3b h4a h4b h5a h5b h6a h6b
    have hlo : 0 ≤ rawRisk fw := by
      unfold rawRisk
      nlinarith
    have hhi : rawRisk fw ≤ 1 := by
      unfold rawRisk
      nlinarith
    unfold risk_score clamp01
    rw [min_eq_right hhi, max_eq_right hlo]

/-- A fused window with every factor at a boundary of [0, 1]. -/
def exFw : FusedWindow := ⟨1, 1, 0.5, 0, 0, 1⟩

/-- C6 witness: at the concrete window `exFw` the score is within bounds
and equals the unclamped weighted sum. -/
theorem C6_witness :
    (0 ≤ risk_score exFw ∧ risk_score exFw ≤ 1) ∧
    risk_score exFw = rawRisk exFw :=
  ⟨C6_risk_score_weighted_clamped.2.1 exFw,
   C6_risk_score_weighted_clamped.2.2 exFw (by norm_num [exFw])
     (by norm_num [exFw]) (by norm_num [exFw]) (by norm_num [exFw])
     (by norm_num [exFw]) (by norm_num [exFw]) (by norm_num [exFw])
     (by norm_num [exFw]) (by norm_num [exFw]) (by norm_num [exFw])
     (by norm_num [exFw]) (by norm_num [exFw])⟩

/-- C7: the decision mapper chooses the action by thresholding, with the
spec's clauses read as a prioritized case split (STOP, then REROUTE, then
SLOW, then CONTINUE): STOP iff risk ≥ 0.8 or distance < 1.5 m; REROUTE iff
not STOP and risk ≥ 0.6 in a congested zone; SLOW iff neither and risk ≥
0.5 or distance < 3.0 m; otherwise CONTINUE. -/
theorem C7_decision_thresholds (risk dist : ℚ) (congested : Bool) :
    (decideAction risk dist congested = RobotAction.STOP ↔
      (0.8 ≤ risk ∨ dist < 1.5)) ∧
    (decideAction risk dist congested = RobotAction.REROUTE ↔
      (¬(0.8 ≤ risk ∨ dist < 1.5) ∧ 0.6 ≤ risk ∧ congested = true)) ∧
    (decideAction risk dist congested = RobotAction.SLOW ↔
      (¬(0.8 ≤ risk ∨ dist < 1.5) ∧ ¬(0.6 ≤ risk ∧ congested = true) ∧
        (0.5 ≤ risk ∨ dist < 3.0))) ∧
    (decideAction risk dist congested = RobotAction.CONTINUE ↔
      (¬(0.8 ≤ risk ∨ dist < 1.5) ∧ ¬(0.6 ≤ risk ∧ congested = true) ∧
        ¬(0.5 ≤ risk ∨ dist < 3.0))) := by
  unfold decideAction
  by_cases h1 : 0.8 ≤ risk ∨ dist < 1.5
  · simp [h1]
  · by_cases h2 : 0.6 ≤ risk ∧ congested = true
    · simp [h1, h2]
    · by_cases h3 : 0.5 ≤ risk ∨ dist < 3.0
      · simp [h1, h2, h3]
      · simp [h1, h2, h3]

/-- While every input risk stays above the STOP threshold minus the
hysteresis margin, a robot that starts in STOP never leaves it. -/
theorem countStopExits_zero_of_high (inputs : List (ℚ × ℚ × Bool))
    (hall : ∀ i ∈ inputs, 0.8 - stopMargin < i.1) :
    countStopExits RobotAction.STOP
      (runHysteresis RobotAction.STOP inputs) = 0 := by
  induction inputs with
  | nil => rfl
  | cons i is ih =>
    have hi : 0.8 - stopMargin < i.1 := hall i (List.mem_cons_self i is)
    have hstep : hysteresisStep RobotAction.STOP i.1 i.2.1 i.2.2 =
        RobotAction.STOP := by
      unfold hysteresisStep
      rw [if_pos ⟨rfl, hi⟩]
    rw [runHysteresis, hstep, countStopExits]
    simp only [ne_eq, not_true_eq_false, and_false, if_false, zero_add]
    exact ih fun j hj => hall j (List.mem_cons_of_mem i hj)

/-- C8: a robot in STOP stays in STOP while its risk has not dropped at
least 0.15 below the 0.8 STOP threshold; consequently a robot whose risk
oscillates within [0.75, 0.85] emits at most one (in fact zero)
STOP-to-non-STOP transitions, since no excursion below threshold minus
margin occurs. -/
theorem C8_stop_hysteresis :
    (∀ (risk dist : ℚ) (congested : Bool),
      0.8 - stopMargin < risk →
      hysteresisStep RobotAction.STOP risk dist congested =
        RobotAction.STOP) ∧
    (∀ inputs : List (ℚ × ℚ × Bool),
      (∀ i ∈ inputs, 0.75 ≤ i.1 ∧ i.1 ≤ 0.85) →
      countStopExits RobotAction.STOP
        (runHysteresis RobotAction.STOP inputs) ≤ 1) := by
  constructor
  · intro risk dist congested h
    unfold hysteresisStep
    rw [if_pos ⟨rfl, h⟩]
  · intro inputs hall
    have : countStopExits RobotAction.STOP
        (runHysteresis RobotAction.STOP inputs) = 0 := by
      apply countStopExits_zero_of_high
      intro i hi
      have := (hall i hi).1
      unfold stopMargin
      linarith
    omega

/-- C8 witness: a concrete oscillation 0.75 / 0.85 / 0.76 never leaves
STOP. -/
theorem C8_witness :
    hysteresisStep RobotAction.STOP 0.75 10 false = RobotAction.STOP ∧
    countStopExits RobotAction.STOP
      (runHysteresis RobotAction.STOP
        [(0.75, 10, false), (0.85, 10, false), (0.76, 10, true)]) ≤ 1 :=
  ⟨C8_stop_hysteresis.1 0.75 10 false (by norm_num [stopMargin]),
   C8_stop_hysteresis.2 [(0.75, 10, false), (0.85, 10, false),
     (0.76, 10, true)] (by
       intro i hi
       fin_cases hi <;> exact ⟨by norm_num, by norm_num⟩)⟩

/-- C10: appending an incoming activity event and keeping the trailing
slice bounds the stored list at `maxEvents` (for any positive bound, in
particular the activity page's 200), and the stored list is a suffix of the
appended list — only the oldest events are evicted. -/
theorem C10_activity_feed_bounded (α : Type) (maxEvents : ℕ)
    (events : List α) (e : α) (hpos : 0 < maxEvents) :
    (pushActivityEvent maxEvents events e).length ≤ maxEvents ∧
    (pushActivityEvent maxEvents events e).IsSuffix (events ++ [e]) := by
  unfold pushActivityEvent jsSliceLast
  rw [if_neg (Nat.pos_iff_ne_zero.mp hpos)]
  constructor
  · rw [List.length_drop]
    omega
  · exact List.drop_suffix _ _

/-- C10 witness: at the activity page's bound of 200 the pushed list stays
within the bound and is a suffix of the appended list. -/
theorem C10_witness :
    0 < activityPageMaxEvents ∧
    (pushActivityEvent activityPageMaxEvents [1, 2, 3] (4 : ℕ)).length ≤
      activityPageMaxEvents ∧
    (pushActivityEvent activityPageMaxEvents [1, 2, 3]
      (4 : ℕ)).IsSuffix ([1, 2, 3] ++ [4]) :=
  ⟨by decide,
   (C10_activity_feed_bounded ℕ activityPageMaxEvents [1, 2, 3] 4
     (by decide)).1,
   (C10_activity_feed_bounded ℕ activityPageMaxEvents [1, 2, 3] 4
     (by decide)).2⟩

/-- C5 witness: enriching a concrete sensor-disagreement alert preserves
its id and attaches the explanation text. -/
theorem C5_witness :
    (enrichAlert (mkSensorDisagreementAlert "zone-a" 0 2)
      "two sensors disagreed").alert_id =
        (mkSensorDisagreementAlert "zone-a" 0 2).alert_id ∧
    (enrichAlert (mkSensorDisagreementAlert "zone-a" 0 2)
      "two sensors disagreed").ai_explanation = "two sensors disagreed" :=
  ⟨(C5_enrichment_preserves_carried_fields.2 ℚ
      (mkSensorDisagreementAlert "zone-a" 0 2) "two sensors disagreed").1,
   (C5_enrichment_preserves_carried_fields.2 ℚ
      (mkSensorDisagreementAlert "zone-a" 0 2)
      "two sensors disagreed").2.2.2.2.2.2.2.2.2.2⟩

/-- C7 witness: concrete threshold checks — risk 0.9 maps to STOP, risk
0.65 in a congested zone with no nearby human maps to REROUTE. -/
theorem C7_witness :
    decideAction 0.9 10 false = RobotAction.STOP ∧
    decideAction 0.65 10 true = RobotAction.REROUTE :=
  ⟨(C7_decision_thresholds 0.9 10 false).1.mpr (Or.inl (by norm_num)),
   (C7_decision_thresholds 0.65 10 true).2.1.mpr
     ⟨by norm_num, by norm_num, rfl⟩⟩
